import Mathlib

/-!
Shallow embedding of `src/export_gacha_uigf.py` (HutaoSave UIGF v3.0 exporter).

The script reads gacha pull rows from a SQLite table `gacha_items`, maps each
row to a UIGF v3.0 record, and writes an `info` + `list` JSON document.
Here the SQLite table is modelled as a `List GachaRow`, the two SQL queries as
pure functions over that list, the wall clock as an explicit `Clock` argument,
and the possibility that the environment raises (a sqlite error during the
record query, an OS error during `json.dump`) as explicit boolean parameters.
The trace of an execution records what was printed, whether the connection and
the file handle are still open when control leaves `export_gacha_data`, and
the result (a normal Python return value or an uncaught exception).
-/

namespace HutaoSave

/-- One row of the `gacha_items` table, in the column order of the SELECT:
`InnerId, ArchiveId, GachaType, Id, ItemId, QueryType, Time`. -/
structure GachaRow where
  innerId : Nat
  archiveId : String
  gachaTypeDb : Int
  id : Nat
  itemId : Int
  queryType : Int
  time : String
deriving DecidableEq, Repr

/-- The `GACHA_TYPE_MAP` dictionary: QueryType code to the pair
`(uigf_gacha_type, gacha_type)`; `none` models a failed `.get`. -/
def GACHA_TYPE_MAP (query_type : Int) : Option (String × String) :=
  if query_type = 100 then some ("100", "100")
  else if query_type = 200 then some ("200", "200")
  else if query_type = 301 then some ("301", "301")
  else if query_type = 302 then some ("302", "302")
  else if query_type = 400 then some ("301", "400")
  else if query_type = 500 then some ("500", "500")
  else none

/-- The `get_rank_type` function: an `if/elif` chain, first matching range wins. -/
def get_rank_type (item_id : Int) : String :=
  if 10000 ≤ item_id ∧ item_id ≤ 19999 then "5"
  else if 11000 ≤ item_id ∧ item_id ≤ 16999 then "4"
  else if 14000 ≤ item_id ∧ item_id ≤ 14999 then "4"
  else if 15000 ≤ item_id ∧ item_id ≤ 15999 then "3"
  else "3"

/-- Result of `get_item_info`: the dict with keys `name`, `item_type`, `rank_type`. -/
structure ItemInfo where
  name : String
  item_type : String
  rank_type : String
deriving DecidableEq, Repr

/-- The `get_item_info` function. -/
def get_item_info (item_id : Int) : ItemInfo :=
  let rank := get_rank_type item_id
  if 10000 ≤ item_id ∧ item_id ≤ 19999 then
    { name := "角色_" ++ toString item_id, item_type := "角色", rank_type := rank }
  else
    { name := "武器_" ++ toString item_id, item_type := "武器", rank_type := rank }

/-- Characters removed by Python `str.strip()` (the ASCII whitespace set). -/
def pyIsSpace (c : Char) : Bool :=
  c == ' ' || c == '\t' || c == '\n' || c == '\r' || c == '\x0b' || c == '\x0c'

/-- Python `str.strip()` on a character list: drop whitespace from both ends. -/
def pyStrip (l : List Char) : List Char :=
  ((l.dropWhile pyIsSpace).reverse.dropWhile pyIsSpace).reverse

/-- Whether a six-character list matches the regex `[+-]\d{2}:\d{2}`
(sign, two digits, colon, two digits). -/
def tzSuffixMatch (l : List Char) : Bool :=
  match l with
  | [s, d1, d2, c, d3, d4] =>
      (s == '+' || s == '-') && d1.isDigit && d2.isDigit && c == ':' &&
        d3.isDigit && d4.isDigit
  | _ => false

/-- The `re.sub` call with pattern `[+-]\d{2}:\d{2}$`: since every newline was
already removed, `$` is the true end of the string, so the substitution can
only delete a matching six-character suffix. -/
def stripTzOffset (l : List Char) : List Char :=
  if tzSuffixMatch (l.drop (l.length - 6)) then l.take (l.length - 6) else l

/-- The `parse_timestamp` function: remove every newline character, delete a
trailing `[+-]\d\d:\d\d` offset, then `strip()` surrounding whitespace. -/
def parse_timestamp (time_str : String) : String :=
  let cs := time_str.data.filter (fun c => c != '\n')
  String.mk (pyStrip (stripTzOffset cs))

/-- Python `str.startswith`, modelled on the character lists. -/
def pyStartsWith (s pat : String) : Bool := pat.data.isPrefixOf s.data

/-- The `get_timezone_from_uid` function. -/
def get_timezone_from_uid (uid : String) : Int :=
  if pyStartsWith uid "6" then -5
  else if pyStartsWith uid "7" then 1
  else 8

/-- One entry of the output `list`, all fields strings per UIGF v3.0. -/
structure UIGFRecord where
  uigf_gacha_type : String
  gacha_type : String
  item_id : String
  count : String
  time : String
  name : String
  item_type : String
  rank_type : String
  id : String
deriving DecidableEq, Repr

/-- The `info` header of the output document. -/
structure UIGFInfo where
  uid : String
  lang : String
  export_timestamp : Int
  export_time : String
  export_app : String
  export_app_version : String
  uigf_version : String
  region_time_zone : Int
deriving DecidableEq, Repr

/-- The whole output document: `info` header plus the record `list`. -/
structure UIGFData where
  info : UIGFInfo
  list : List UIGFRecord
deriving DecidableEq, Repr

/-- The loop body for one row whose query type resolved to `gacha_info`. -/
def makeRecord (gacha_info : String × String) (row : GachaRow) : UIGFRecord :=
  let item_info := get_item_info row.itemId
  { uigf_gacha_type := gacha_info.1
    gacha_type := gacha_info.2
    item_id := toString row.itemId
    count := "1"
    time := parse_timestamp row.time
    name := item_info.name
    item_type := item_info.item_type
    rank_type := item_info.rank_type
    id := toString row.id }

/-- The record emitted for a row, or `none` when its query type is unmapped. -/
def normalizeRow (row : GachaRow) : Option UIGFRecord :=
  (GACHA_TYPE_MAP row.queryType).map (fun gi => makeRecord gi row)

/-- The warning printed when a query type misses `GACHA_TYPE_MAP`. -/
def warnMsg (query_type : Int) (record_id : Nat) : String :=
  "警告: 未知的卡池类型 " ++ toString query_type ++ ", 跳过记录 " ++ toString record_id

/-- The export loop over the fetched rows: returns the warnings printed (in
order) and the accumulated `gacha_list` (in row order). -/
def buildList : List GachaRow → List String × List UIGFRecord
  | [] => ([], [])
  | row :: rest =>
    match GACHA_TYPE_MAP row.queryType with
    | none => ((warnMsg row.queryType row.id) :: (buildList rest).1, (buildList rest).2)
    | some gi => ((buildList rest).1, makeRecord gi row :: (buildList rest).2)

/-- Row comparison used to model `ORDER BY Id ASC`. -/
def rowLe (a b : GachaRow) : Prop := a.id ≤ b.id

instance : DecidableRel rowLe := fun a b => Nat.decLe a.id b.id

instance : IsTotal GachaRow rowLe := ⟨fun a b => Nat.le_total a.id b.id⟩

instance : IsTrans GachaRow rowLe := ⟨fun _ _ _ hab hbc => Nat.le_trans hab hbc⟩

/-- The second query: `SELECT ... WHERE ArchiveId = ? ORDER BY Id ASC`. -/
def selectRowsForUid (store : List GachaRow) (uid : String) : List GachaRow :=
  List.insertionSort rowLe (store.filter (fun r => r.archiveId == uid))

/-- The wall clock sampled by the two `datetime.now()` calls. -/
structure Clock where
  export_timestamp : Int
  export_time : String
deriving DecidableEq, Repr

/-- Outcome of a Python call: a normal return value, or an uncaught exception
identified by its class name. -/
inductive PyOutcome (α : Type) where
  | ok : α → PyOutcome α
  | exn : String → PyOutcome α
deriving DecidableEq, Repr

/-- True when the call left by raising an exception. -/
def raisesException (t : PyOutcome (Option UIGFData)) : Bool :=
  match t with
  | PyOutcome.exn _ => true
  | PyOutcome.ok _ => false

/-- Observable trace of one call of `export_gacha_data`. -/
structure ExportTrace where
  printed : List String
  connOpenAtExit : Bool
  fileOpenAtExit : Bool
  fileOpened : Bool
  fileWritten : Option UIGFData
  result : PyOutcome (Option UIGFData)
deriving DecidableEq, Repr

/-- The body of `export_gacha_data` after the UID has been resolved.
`queryRaises` models a sqlite exception in the `cursor.execute` fetching the
records (raised before `conn.close()` is reached; the function has no
try/finally, so the connection stays open). `dumpRaises` models an exception
inside `json.dump`; the `with open` statement still closes the file handle. -/
def exportWithUid (store : List GachaRow) (uid : String) (output_path : String)
    (clock : Clock) (queryRaises dumpRaises : Bool) : ExportTrace :=
  if queryRaises then
    { printed := []
      connOpenAtExit := true
      fileOpenAtExit := false
      fileOpened := false
      fileWritten := none
      result := PyOutcome.exn "sqlite3.OperationalError" }
  else
    let rows := selectRowsForUid store uid
    if rows.isEmpty then
      { printed := ["错误: 未找到 UID " ++ uid ++ " 的抽卡记录"]
        connOpenAtExit := false
        fileOpenAtExit := false
        fileOpened := false
        fileWritten := none
        result := PyOutcome.ok none }
    else
      let headerMsg :=
        "正在导出 UID " ++ uid ++ " 的 " ++ toString rows.length ++ " 条抽卡记录..."
      let gacha_list := (buildList rows).2
      let uigf_data : UIGFData :=
        { info :=
            { uid := uid
              lang := "zh-cn"
              export_timestamp := clock.export_timestamp
              export_time := clock.export_time
              export_app := "HutaoSave Exporter"
              export_app_version := "1.0.0"
              uigf_version := "v3.0"
              region_time_zone := get_timezone_from_uid uid }
          list := gacha_list }
      if dumpRaises then
        { printed := headerMsg :: (buildList rows).1
          connOpenAtExit := false
          fileOpenAtExit := false
          fileOpened := true
          fileWritten := none
          result := PyOutcome.exn "OSError" }
      else
        { printed :=
            headerMsg :: (buildList rows).1 ++
              ["导出完成!", "- UID: " ++ uid,
               "- 记录数: " ++ toString gacha_list.length,
               "- 时区偏移: " ++ toString (get_timezone_from_uid uid),
               "- 文件保存至: " ++ output_path]
          connOpenAtExit := false
          fileOpenAtExit := false
          fileOpened := true
          fileWritten := some uigf_data
          result := PyOutcome.ok (some uigf_data) }

/-- The `export_gacha_data` function. When `uid?` is `none` the script runs
`SELECT DISTINCT ArchiveId FROM gacha_items LIMIT 1`, modelled as the archive
id of the first stored row; an empty store prints an error, closes the
connection and returns `None`. -/
def export_gacha_data (store : List GachaRow) (uid? : Option String)
    (output_path : String) (clock : Clock) (queryRaises dumpRaises : Bool) :
    ExportTrace :=
  match uid? with
  | some uid => exportWithUid store uid output_path clock queryRaises dumpRaises
  | none =>
    match store.head? with
    | some firstRow =>
        exportWithUid store firstRow.archiveId output_path clock queryRaises dumpRaises
    | none =>
      { printed := ["错误: 数据库中没有抽卡记录"]
        connOpenAtExit := false
        fileOpenAtExit := false
        fileOpened := false
        fileWritten := none
        result := PyOutcome.ok none }

/-- Exit status of the `__main__` block: the `try/except Exception` catches
every exception from `export_gacha_data`, prints the traceback, and the script
then falls off the end, so the interpreter always exits with status 0. -/
def main_exit_code (_t : ExportTrace) : Nat := 0

/-- The `list` of the produced document, when the call returned one. -/
def traceListOf (t : ExportTrace) : Option (List UIGFRecord) :=
  match t.result with
  | PyOutcome.ok (some d) => some d.list
  | _ => none

/-- The `info.region_time_zone` of the produced document, when there is one. -/
def traceTz (t : ExportTrace) : Option Int :=
  match t.result with
  | PyOutcome.ok (some d) => some d.info.region_time_zone
  | _ => none

/-- The clock-independent `info` fields of the produced document:
`(uid, lang, export_app, export_app_version, uigf_version, region_time_zone)`. -/
def traceInfoStatic (t : ExportTrace) :
    Option (String × String × String × String × String × Int) :=
  match t.result with
  | PyOutcome.ok (some d) =>
      some (d.info.uid, d.info.lang, d.info.export_app, d.info.export_app_version,
        d.info.uigf_version, d.info.region_time_zone)
  | _ => none

/-- Fixed clock value used for the concrete runs in the theorems below. -/
def testClock : Clock := { export_timestamp := 1731724395, export_time := "2024-11-16 18:33:15" }

/-- Concrete store for the end-to-end example: three rows for key `"800000001"`
with query types `{100, 999, 301}` and display ids `{1, 2, 3}`, stored out of
display order so the `ORDER BY Id ASC` step is exercised. -/
def c3store : List GachaRow :=
  [⟨2, "800000001", 999, 2, 14509, 999, "2024-11-15 11:00:00\n+08:00"⟩,
   ⟨1, "800000001", 100, 1, 10008, 100, "2024-11-15 10:33:15\n+08:00"⟩,
   ⟨3, "800000001", 301, 3, 15502, 301, "2024-11-16 10:33:15"⟩]

/-- Concrete store that is not empty but has no rows for key `"999"`. -/
def noRecordsStore : List GachaRow :=
  [⟨1, "800000001", 100, 1, 10008, 100, "2024-11-15 10:33:15\n+08:00"⟩]

theorem mem_of_mem_pyStrip {c : Char} {l : List Char} (h : c ∈ pyStrip l) : c ∈ l := by
  unfold pyStrip at h
  have h1 := List.mem_reverse.mp h
  have h2 := (List.dropWhile_sublist pyIsSpace).subset h1
  have h3 := List.mem_reverse.mp h2
  exact (List.dropWhile_sublist pyIsSpace).subset h3

theorem mem_of_mem_stripTzOffset {c : Char} {l : List Char}
    (h : c ∈ stripTzOffset l) : c ∈ l := by
  unfold stripTzOffset at h
  split at h
  · exact (List.take_sublist _ _).subset h
  · exact h

theorem buildList_snd (rows : List GachaRow) :
    (buildList rows).2 = rows.filterMap normalizeRow := by
  induction rows with
  | nil => rfl
  | cons row rest ih =>
    cases h : GACHA_TYPE_MAP row.queryType with
    | none => simp [buildList, h, List.filterMap_cons, normalizeRow, ih]
    | some gi => simp [buildList, h, List.filterMap_cons, normalizeRow, ih]

theorem buildList_fst (rows : List GachaRow) :
    (buildList rows).1 =
      (rows.filter (fun r => (GACHA_TYPE_MAP r.queryType).isNone)).map
        (fun r => warnMsg r.queryType r.id) := by
  induction rows with
  | nil => rfl
  | cons row rest ih =>
    cases h : GACHA_TYPE_MAP row.queryType with
    | none => simp [buildList, h, ih]
    | some gi => simp [buildList, h, ih]

theorem selectRowsForUid_sorted (store : List GachaRow) (uid : String) :
    List.Pairwise rowLe (selectRowsForUid store uid) :=
  List.sorted_insertionSort rowLe _

theorem exportWithUid_fileOpenAtExit (store : List GachaRow) (uid out : String)
    (c : Clock) (qr dr : Bool) :
    (exportWithUid store uid out c qr dr).fileOpenAtExit = false := by
  simp only [exportWithUid]
  split
  · rfl
  · split
    · rfl
    · split <;> rfl

theorem exportWithUid_connOpenAtExit (store : List GachaRow) (uid out : String)
    (c : Clock) (dr : Bool) :
    (exportWithUid store uid out c false dr).connOpenAtExit = false := by
  simp only [exportWithUid]
  split
  · next h => exact absurd h (by decide)
  · split
    · rfl
    · split <;> rfl

/-- C1 (counterexample): the claim asserts that `classify_item 12000` yields
rank "4" and that `classify_item 15500` yields category weapon with rank "3".
In the code the `if/elif` chain returns on the first matching range, so 12000
gets rank "5", and 15500 — which also lies in [10000,19999] — is classified as
a character of rank "5", not a weapon of rank "3". -/
theorem c1_counterexample :
    (get_item_info 12000).item_type = "角色" ∧ (get_item_info 12000).rank_type = "5"
    ∧ ¬((get_item_info 12000).rank_type = "4")
    ∧ (get_item_info 15500).item_type = "角色" ∧ (get_item_info 15500).rank_type = "5"
    ∧ ¬((get_item_info 15500).item_type = "武器" ∧ (get_item_info 15500).rank_type = "3") := by
  decide

/-- C1 (amended): classification evaluates the ranges in order with the first
match winning and no further downgrade check: every id in [10000,19999] is
classified as a character of rank "5" (the [11000,16999], [14000,14999] and
[15000,15999] branches are shadowed subsets of the first range), and every
other id as a weapon of rank "3". -/
theorem c1_classification :
    ∀ item_id : Int,
      get_item_info item_id =
        (if 10000 ≤ item_id ∧ item_id ≤ 19999 then
          { name := "角色_" ++ toString item_id, item_type := "角色", rank_type := "5" }
        else
          { name := "武器_" ++ toString item_id, item_type := "武器", rank_type := "3" }) := by
  intro i
  by_cases h : 10000 ≤ i ∧ i ≤ 19999
  · simp [get_item_info, get_rank_type, h]
  · have h2 : ¬(11000 ≤ i ∧ i ≤ 16999) := by omega
    have h3 : ¬(14000 ≤ i ∧ i ≤ 14999) := by omega
    have h4 : ¬(15000 ≤ i ∧ i ≤ 15999) := by omega
    simp [get_item_info, get_rank_type, h, h2, h3, h4]

/-- C2 (counterexample): the claim asserts that `export_gacha_data` fails with
`EmptyStoreError` / `NoRecordsForKeyError` and that the process exits
non-zero. On both no-records paths the call raises nothing: it returns `None`
normally after printing an error, and the `__main__` wrapper exits 0. -/
theorem c2_counterexample :
    raisesException (export_gacha_data [] none "out.json" testClock false false).result = false
    ∧ (export_gacha_data [] none "out.json" testClock false false).result = PyOutcome.ok none
    ∧ main_exit_code (export_gacha_data [] none "out.json" testClock false false) = 0
    ∧ raisesException
        (export_gacha_data noRecordsStore (some "999") "out.json" testClock false false).result
        = false
    ∧ (export_gacha_data noRecordsStore (some "999") "out.json" testClock false false).result
        = PyOutcome.ok none := by
  decide

/-- C2 (amended): `export_gacha_data` reports the empty-store and
no-records-for-key conditions by printing an error message and returning
`None` rather than raising named exceptions, and the `__main__` wrapper
catches every exception, so the process always exits with status 0. -/
theorem c2_error_reporting :
    (∀ store uid? out c qr dr,
        main_exit_code (export_gacha_data store uid? out c qr dr) = 0)
    ∧ (∀ out c qr dr,
        (export_gacha_data [] none out c qr dr).result = PyOutcome.ok none
        ∧ (export_gacha_data [] none out c qr dr).printed = ["错误: 数据库中没有抽卡记录"])
    ∧ (∀ out c dr,
        (export_gacha_data noRecordsStore (some "999") out c false dr).result
          = PyOutcome.ok none
        ∧ (export_gacha_data noRecordsStore (some "999") out c false dr).printed
          = ["错误: 未找到 UID 999 的抽卡记录"]) := by
  refine ⟨fun _ _ _ _ _ _ => rfl, fun _ _ _ _ => ⟨rfl, rfl⟩, fun _ _ _ => ⟨?_, ?_⟩⟩ <;> rfl

/-- C3: the exported list holds exactly one normalized record per fetched row
whose query type is in `GACHA_TYPE_MAP` (in row order), the fetched rows are
in ascending display-id order, each skipped row produces a warning built from
its query-type code and display id, and on the concrete three-row store for
key "800000001" with query types {100, 999, 301} and display ids {1, 2, 3}
the output list has exactly 2 entries ordered by display id ascending, the
warning for code 999 / record 2 is printed, and `info.region_time_zone` is 8. -/
theorem c3_export_list_shape :
    (∀ rows : List GachaRow, (buildList rows).2 = rows.filterMap normalizeRow)
    ∧ (∀ rows : List GachaRow, (buildList rows).1 =
        (rows.filter (fun r => (GACHA_TYPE_MAP r.queryType).isNone)).map
          (fun r => warnMsg r.queryType r.id))
    ∧ (∀ store uid, List.Pairwise rowLe (selectRowsForUid store uid))
    ∧ ((traceListOf (export_gacha_data c3store (some "800000001") "out.json" testClock
          false false)).map List.length = some 2)
    ∧ ((traceListOf (export_gacha_data c3store (some "800000001") "out.json" testClock
          false false)).map (List.map (fun rec => rec.id)) = some ["1", "3"])
    ∧ (traceTz (export_gacha_data c3store (some "800000001") "out.json" testClock
          false false) = some 8)
    ∧ (warnMsg 999 2 ∈ (export_gacha_data c3store (some "800000001") "out.json" testClock
          false false).printed) :=
  ⟨buildList_snd, buildList_fst, selectRowsForUid_sorted, by decide, by decide,
    by decide, by decide⟩

/-- C4: `parse_timestamp` maps "2024-11-16 10:33:15\n+08:00" and
"2024-11-16 10:33:15+00:00" to "2024-11-16 10:33:15", and is the identity on
the already-clean "2024-11-16 10:33:15". -/
theorem c4_parse_timestamp_examples :
    parse_timestamp "2024-11-16 10:33:15\n+08:00" = "2024-11-16 10:33:15"
    ∧ parse_timestamp "2024-11-16 10:33:15+00:00" = "2024-11-16 10:33:15"
    ∧ parse_timestamp "2024-11-16 10:33:15" = "2024-11-16 10:33:15" := by
  decide

/-- C5 (counterexample): the claim asserts the result of `parse_timestamp`
never contains a line break of any kind, '\r' included. The code only removes
'\n' (plus whitespace at the two ends via `strip()`), so an embedded carriage
return survives. -/
theorem c5_counterexample :
    parse_timestamp "2024-11-16\r10:33:15" = "2024-11-16\r10:33:15"
    ∧ '\r' ∈ (parse_timestamp "2024-11-16\r10:33:15").data := by
  decide

/-- C5 (amended): for every input string the result of `parse_timestamp`
contains no '\n' character; embedded '\r' characters are only removed at the
ends of the string by the final `strip()` and may survive in the interior. -/
theorem c5_no_newline :
    ∀ s : String, ((parse_timestamp s).data.all (fun c => c != '\n')) = true := by
  intro s
  rw [List.all_eq_true]
  intro c hc
  have h1 : c ∈ pyStrip (stripTzOffset (s.data.filter (fun c => c != '\n'))) := hc
  have h2 := mem_of_mem_stripTzOffset (mem_of_mem_pyStrip h1)
  exact (List.mem_filter.mp h2).2

/-- C6 (counterexample): the claim asserts the store connection is released on
every exit path, including an exception raised during querying. The code has
no try/finally around the connection, so when the record query raises, the
call exits by exception with the connection still open. -/
theorem c6_counterexample :
    (export_gacha_data noRecordsStore (some "800000001") "out.json" testClock
        true false).connOpenAtExit = true
    ∧ raisesException (export_gacha_data noRecordsStore (some "800000001") "out.json"
        testClock true false).result = true := by
  decide

/-- C6 (amended): the output file handle is scoped by a `with` statement and
is released on every exit path, including an exception inside `json.dump`;
the store connection is released on every exit path on which the record query
does not raise, but not when it does. -/
theorem c6_resource_release :
    (∀ store uid? out c qr dr,
        (export_gacha_data store uid? out c qr dr).fileOpenAtExit = false)
    ∧ (∀ store uid? out c dr,
        (export_gacha_data store uid? out c false dr).connOpenAtExit = false) := by
  constructor
  · intro store uid? out c qr dr
    cases uid? with
    | some uid => exact exportWithUid_fileOpenAtExit store uid out c qr dr
    | none =>
        cases h : store.head? with
        | none => simp [export_gacha_data, h]
        | some firstRow =>
            simp only [export_gacha_data, h]
            exact exportWithUid_fileOpenAtExit store firstRow.archiveId out c qr dr
  · intro store uid? out c dr
    cases uid? with
    | some uid => exact exportWithUid_connOpenAtExit store uid out c dr
    | none =>
        cases h : store.head? with
        | none => simp [export_gacha_data, h]
        | some firstRow =>
            simp only [export_gacha_data, h]
            exact exportWithUid_connOpenAtExit store firstRow.archiveId out c dr

/-- C7: `GACHA_TYPE_MAP` resolves exactly the six query-type codes 100, 200,
301, 302, 400 and 500 to fixed pairs of interchange pool codes, and yields
`none` for every other integer. -/
theorem c7_gacha_type_map :
    (∀ q : Int, (GACHA_TYPE_MAP q).isSome =
        (q == 100 || q == 200 || q == 301 || q == 302 || q == 400 || q == 500))
    ∧ GACHA_TYPE_MAP 100 = some ("100", "100")
    ∧ GACHA_TYPE_MAP 200 = some ("200", "200")
    ∧ GACHA_TYPE_MAP 301 = some ("301", "301")
    ∧ GACHA_TYPE_MAP 302 = some ("302", "302")
    ∧ GACHA_TYPE_MAP 400 = some ("301", "400")
    ∧ GACHA_TYPE_MAP 500 = some ("500", "500") := by
  refine ⟨fun q => ?_, by decide, by decide, by decide, by decide, by decide, by decide⟩
  unfold GACHA_TYPE_MAP
  split_ifs <;> simp_all

/-- C8: running the export twice on the same store with the same explicit
identity key and two different clock values produces the same record list and
the same clock-independent `info` fields; only `export_timestamp` and
`export_time` can differ between the two documents. -/
theorem c8_determinism :
    ∀ (store : List GachaRow) (uid out : String) (c1 c2 : Clock),
      traceListOf (export_gacha_data store (some uid) out c1 false false)
        = traceListOf (export_gacha_data store (some uid) out c2 false false)
      ∧ traceInfoStatic (export_gacha_data store (some uid) out c1 false false)
        = traceInfoStatic (export_gacha_data store (some uid) out c2 false false) := by
  intro store uid out c1 c2
  by_cases h : (selectRowsForUid store uid).isEmpty
  <;> simp [export_gacha_data, exportWithUid, h, traceListOf, traceInfoStatic]

/-- C9: a row with query type 400 is emitted with `uigf_gacha_type` "301" but
`gacha_type` "400" (the two fields differ); for the other five mapped codes
both fields equal the decimal string of the code itself. -/
theorem c9_dual_type_fields :
    ∀ (ir : Nat) (aid : String) (gt : Int) (rid : Nat) (iid : Int) (ts : String),
      ((normalizeRow ⟨ir, aid, gt, rid, iid, 400, ts⟩).map
          (fun rec => (rec.uigf_gacha_type, rec.gacha_type)) = some ("301", "400"))
      ∧ ("301" : String) ≠ "400"
      ∧ ((normalizeRow ⟨ir, aid, gt, rid, iid, 100, ts⟩).map
          (fun rec => (rec.uigf_gacha_type, rec.gacha_type)) = some ("100", "100"))
      ∧ ((normalizeRow ⟨ir, aid, gt, rid, iid, 200, ts⟩).map
          (fun rec => (rec.uigf_gacha_type, rec.gacha_type)) = some ("200", "200"))
      ∧ ((normalizeRow ⟨ir, aid, gt, rid, iid, 301, ts⟩).map
          (fun rec => (rec.uigf_gacha_type, rec.gacha_type)) = some ("301", "301"))
      ∧ ((normalizeRow ⟨ir, aid, gt, rid, iid, 302, ts⟩).map
          (fun rec => (rec.uigf_gacha_type, rec.gacha_type)) = some ("302", "302"))
      ∧ ((normalizeRow ⟨ir, aid, gt, rid, iid, 500, ts⟩).map
          (fun rec => (rec.uigf_gacha_type, rec.gacha_type)) = some ("500", "500")) := by
  intro ir aid gt rid iid ts
  exact ⟨rfl, by decide, rfl, rfl, rfl, rfl, rfl⟩

/-- C10: on both no-records failure paths (empty store, or a resolved key with
zero rows) `export_gacha_data` returns `None` without raising, and the output
file is neither opened nor written, so pre-existing content at the destination
path is untouched. -/
theorem c10_no_file_on_failure :
    (∀ out c qr dr,
        (export_gacha_data [] none out c qr dr).result = PyOutcome.ok none
        ∧ (export_gacha_data [] none out c qr dr).fileOpened = false
        ∧ (export_gacha_data [] none out c qr dr).fileWritten = none
        ∧ raisesException (export_gacha_data [] none out c qr dr).result = false)
    ∧ (∀ store uid out c dr, selectRowsForUid store uid = [] →
        (export_gacha_data store (some uid) out c false dr).result = PyOutcome.ok none
        ∧ (export_gacha_data store (some uid) out c false dr).fileOpened = false
        ∧ (export_gacha_data store (some uid) out c false dr).fileWritten = none
        ∧ raisesException (export_gacha_data store (some uid) out c false dr).result
            = false) := by
  constructor
  · intro out c qr dr
    exact ⟨rfl, rfl, rfl, rfl⟩
  · intro store uid out c dr h
    have he : (selectRowsForUid store uid).isEmpty = true := by simp [h]
    refine ⟨?_, ?_, ?_, ?_⟩ <;>
      simp [export_gacha_data, exportWithUid, he, raisesException]

/-- C10 (witness): the zero-rows branch of the theorem applied to the concrete
store whose only row belongs to a different key. -/
theorem c10_no_file_on_failure_witness :
    (export_gacha_data noRecordsStore (some "999") "out.json" testClock false false).result
        = PyOutcome.ok none
    ∧ (export_gacha_data noRecordsStore (some "999") "out.json" testClock false
        false).fileOpened = false
    ∧ (export_gacha_data noRecordsStore (some "999") "out.json" testClock false
        false).fileWritten = none
    ∧ raisesException (export_gacha_data noRecordsStore (some "999") "out.json" testClock
        false false).result = false :=
  c10_no_file_on_failure.2 noRecordsStore "999" "out.json" testClock false (by decide)

end HutaoSave
